import Mathlib

/-!
Shallow embedding of the playback session engine of the music-bag app:
the `AudioProvider` React context (src/core/providers/AudioProvider.tsx),
the `BackgroundAudioManager` singleton and the position-save throttle of
`PlayerScreen`.  JavaScript arrays may hold `undefined`, so a playlist
slot is modelled as `Option Track`; reading past the end of an array
yields `undefined`, i.e. `none`.  Asynchronous platform effects (sound
loading, status queries) are passed in as explicit parameters.
-/

namespace MusicBag

/-- A downloaded audio record; only the fields the playback engine reads
are modelled (`id` for lookups, `localUri` for loading, `title`). -/
structure Track where
  id : String
  title : String
  localUri : String
deriving DecidableEq, Repr

/-- A JavaScript array slot: a real track, or the JS `undefined` value. -/
abbrev Slot := Option Track

/-- Reading `l[i]` on a JS array: the slot when `i` is in range,
`undefined` otherwise. -/
def jsAt (l : List Slot) (i : Nat) : Slot := l.getD i none

/-- The playback status object delivered by an expo-av sound. -/
structure AVStatus where
  isLoaded : Bool
  isPlaying : Bool
  isBuffering : Bool
  positionMillis : Nat
  durationMillis : Nat
  didJustFinish : Bool
deriving DecidableEq, Repr

/-- The value stored in `BackgroundAudioManager.backgroundTaskId`: either
a `setInterval` handle (from `startContinuousBackgroundTask`) or a
`Date.now()` timestamp (from `startBackgroundTask`). -/
inductive BgTaskId where
  | interval (id : Nat)
  | timestamp (t : Nat)
deriving DecidableEq, Repr

/-- State of the `BackgroundAudioManager` singleton.  `activeIntervals`
is a modelling device: the handles of `setInterval` timers that have
been started and not yet passed to `clearInterval`. -/
structure MgrState where
  currentAudio : Option Track
  sound : Option Nat
  isPlaying : Bool
  backgroundTaskId : Option BgTaskId
  activeIntervals : List Nat
deriving DecidableEq, Repr

/-- State held by the `AudioProvider` component.  `soundRef` holds the
identifier of the currently referenced sound object;
`posUpdatesActive` records whether the 1-second position interval is
running. -/
structure ProvState where
  currentAudio : Option Track
  isPlaying : Bool
  position : ℚ
  duration : ℚ
  isBuffering : Bool
  playlist : List Slot
  currentIndex : Nat
  isAutoPlayEnabled : Bool
  isShuffled : Bool
  isRepeating : Bool
  originalPlaylist : List Slot
  soundRef : Option Nat
  posUpdatesActive : Bool
deriving DecidableEq, Repr

/-- Combined system state.  `clock` is a modelling device supplying fresh
sound identifiers, interval handles and timestamps. -/
structure SysState where
  prov : ProvState
  mgr : MgrState
  clock : Nat
deriving DecidableEq, Repr

/-- The provider state right after mount. -/
def initialProv : ProvState where
  currentAudio := none
  isPlaying := false
  position := 0
  duration := 0
  isBuffering := false
  playlist := []
  currentIndex := 0
  isAutoPlayEnabled := true
  isShuffled := false
  isRepeating := false
  originalPlaylist := []
  soundRef := none
  posUpdatesActive := false

/-- The manager state right after construction. -/
def initialMgr : MgrState where
  currentAudio := none
  sound := none
  isPlaying := false
  backgroundTaskId := none
  activeIntervals := []

def initialState : SysState where
  prov := initialProv
  mgr := initialMgr
  clock := 0

/-- The branch of `playAudio` taken when no non-empty playlist context
is supplied: keep the existing playlist if the track is in it, otherwise
reset both playlists to a singleton. -/
def playAudioKeepPlaylist (a : Track) (s : SysState) : SysState :=
  if s.prov.playlist.length > 0 then
    match s.prov.playlist.findIdx? (fun slot : Slot => decide (slot.map Track.id = some a.id)) with
    | some idx => { s with prov.currentIndex := idx }
    | none => { s with prov.originalPlaylist := [some a],
                       prov.playlist := [some a],
                       prov.currentIndex := 0 }
  else
    { s with prov.originalPlaylist := [some a],
             prov.playlist := [some a],
             prov.currentIndex := 0 }

/-- The playlist-context block of `playAudio`: a provided non-empty
context replaces both playlists and `currentIndex` becomes the explicit
index, or the position of the track id in the context, or 0 when the
lookup returns -1; otherwise the existing playlist is kept. -/
def playAudioInstallContext (a : Track) (playlistContext : Option (List Slot))
    (explicitIndex : Option Nat) (s : SysState) : SysState :=
  match playlistContext with
  | some ctx =>
    if ctx.length > 0 then
      let audioIndex : Int :=
        match explicitIndex with
        | some i => (i : Int)
        | none =>
          match ctx.findIdx? (fun slot : Slot => decide (slot.map Track.id = some a.id)) with
          | some k => (k : Int)
          | none => -1
      { s with prov.originalPlaylist := ctx,
               prov.playlist := ctx,
               prov.currentIndex := if audioIndex ≥ 0 then audioIndex.toNat else 0 }
    else playAudioKeepPlaylist a s
  | none => playAudioKeepPlaylist a s

/-- `playAudio(audio, playlistContext?, explicitIndex?)` from
AudioProvider.tsx.  `loadOk` is the outcome of the
`Audio.Sound.createAsync` call; on failure the `catch` block only resets
the playing flags, keeping every mutation made before the load.  When
`audio` is the JS `undefined` value the very first statement of the
`try` block (`audio.title`) throws, so only the `catch` runs. -/
def playAudio (loadOk : Bool) (audio : Slot)
    (playlistContext : Option (List Slot)) (explicitIndex : Option Nat)
    (s : SysState) : SysState :=
  match audio with
  | none => { s with prov.isPlaying := false, mgr.isPlaying := false }
  | some a =>
    let s := { s with prov.currentAudio := some a, mgr.currentAudio := some a }
    let s := playAudioInstallContext a playlistContext explicitIndex s
    let s := { s with mgr.backgroundTaskId := some (BgTaskId.timestamp s.clock),
                      clock := s.clock + 1 }
    if loadOk then
      { s with clock := s.clock + 1,
               prov.soundRef := some s.clock,
               mgr.sound := some s.clock,
               prov.isPlaying := true,
               mgr.isPlaying := true,
               prov.posUpdatesActive := true }
    else
      { s with prov.isPlaying := false, mgr.isPlaying := false }

/-- `stopAudio` from AudioProvider.tsx: unload the sound, call
`backgroundAudioManager.stopBackgroundTask()` (which only nulls the
stored id and does not clear any interval), clear the current track and
reset position and duration. -/
def stopAudio (s : SysState) : SysState :=
  { s with prov.soundRef := none,
           mgr.backgroundTaskId := none,
           mgr.sound := none,
           prov.currentAudio := none,
           mgr.currentAudio := none,
           prov.isPlaying := false,
           mgr.isPlaying := false,
           prov.position := 0,
           prov.duration := 0,
           prov.posUpdatesActive := false }

/-- `pauseAudio` from AudioProvider.tsx: a no-op without a sound
reference; otherwise pause and stop the position interval.  The
background health-check interval is not touched. -/
def pauseAudio (s : SysState) : SysState :=
  if s.prov.soundRef.isSome then
    { s with prov.isPlaying := false,
             mgr.isPlaying := false,
             prov.posUpdatesActive := false }
  else s

/-- `resumeAudio` from AudioProvider.tsx. -/
def resumeAudio (s : SysState) : SysState :=
  if s.prov.soundRef.isSome then
    { s with prov.isPlaying := true,
             mgr.isPlaying := true,
             prov.posUpdatesActive := true }
  else s

/-- `seekTo(newPosition)` from AudioProvider.tsx.  Returns the updated
state together with the millisecond value handed to
`sound.setPositionAsync` (`none` when no sound is loaded).  The source
performs no clamping. -/
def seekTo (newPosition : ℚ) (s : SysState) : SysState × Option ℚ :=
  if s.prov.soundRef.isSome then
    ({ s with prov.position := newPosition }, some (newPosition * 1000))
  else (s, none)

/-- `setPlaylist(newPlaylist, startIndex = 0)` from AudioProvider.tsx:
stores the list in both `playlist` and `originalPlaylist` and assigns
`currentIndex := startIndex` without any range check. -/
def setPlaylist (newPlaylist : List Slot) (startIndex : Nat) (s : SysState) : SysState :=
  { s with prov.originalPlaylist := newPlaylist,
           prov.playlist := newPlaylist,
           prov.currentIndex := startIndex }

/-- One in-place swap `[a[i], a[j]] = [a[j], a[i]]` on a JS array; the
Fisher-Yates loop only ever uses in-range indices, for which both reads
succeed. -/
def swapIdx (l : List Slot) (i j : Nat) : List Slot :=
  match l.get? i, l.get? j with
  | some a, some b => (l.set i b).set j a
  | _, _ => l

/-- The descending Fisher-Yates loop of `toggleShuffle`: `i` runs from
`l.length - 1` down to `1`, and `rand i` stands for
`Math.floor(Math.random() * (i + 1))`, reduced mod `i + 1` to reflect
its range. -/
def fyAux (rand : Nat → Nat) (l : List Slot) : Nat → List Slot
  | 0 => l
  | i + 1 => fyAux rand (swapIdx l (i + 1) (rand (i + 1) % (i + 2))) i

def fisherYates (rand : Nat → Nat) (l : List Slot) : List Slot :=
  fyAux rand l (l.length - 1)

/-- Whether the guarded debug log `list.map(a => a.title)` in
`toggleShuffle` throws: the log runs only on a non-empty list, and
`a.title` raises a TypeError at the first `undefined` element. -/
def logMapThrows (l : List Slot) : Bool :=
  decide (l.length > 0) && l.any (fun slot => slot.isNone)

/-- `toggleShuffle` from AudioProvider.tsx.  Enabling copies
`originalPlaylist`, reads the slot at `currentIndex` (JS yields
`undefined` out of range), splices it out, shuffles the rest and
unshifts the saved slot; disabling restores `originalPlaylist` and looks
the current track id up in it, falling back to index 0.  In both
branches a debug log maps `a.title` over the list about to be (or just
before being) installed; when that list holds an `undefined` element the
log throws, aborting the handler after only `setIsShuffled` has run —
the new order and index are never stored. -/
def toggleShuffle (rand : Nat → Nat) (s : SysState) : SysState :=
  let newShuffled := !s.prov.isShuffled
  let s := { s with prov.isShuffled := newShuffled }
  if newShuffled then
    let shuffled := s.prov.originalPlaylist
    let currentTrack := jsAt shuffled s.prov.currentIndex
    let shuffled := shuffled.eraseIdx s.prov.currentIndex
    let shuffled := fisherYates rand shuffled
    let shuffled := currentTrack :: shuffled
    if logMapThrows shuffled then s
    else
      { s with prov.playlist := shuffled,
               prov.currentIndex := 0 }
  else
    if logMapThrows s.prov.originalPlaylist then s
    else
      let currentTrackId := (jsAt s.prov.playlist s.prov.currentIndex).map Track.id
      let newIndex :=
        s.prov.originalPlaylist.findIdx? (fun track : Slot => decide (track.map Track.id = currentTrackId))
      { s with prov.playlist := s.prov.originalPlaylist,
               prov.currentIndex := newIndex.getD 0 }

/-- `toggleRepeat` from AudioProvider.tsx. -/
def toggleRepeat (s : SysState) : SysState :=
  { s with prov.isRepeating := !s.prov.isRepeating }

/-- `playNext` from AudioProvider.tsx: stop when the playlist is empty
or when `currentIndex + 1` is past the last index, otherwise play the
next track passing the playlist context and the explicit index. -/
def playNext (loadOk : Bool) (s : SysState) : SysState :=
  if s.prov.playlist.length = 0 then stopAudio s
  else
    let nextIndex := s.prov.currentIndex + 1
    if nextIndex < s.prov.playlist.length then
      playAudio loadOk (jsAt s.prov.playlist nextIndex) (some s.prov.playlist) (some nextIndex) s
    else stopAudio s

/-- `playPrevious` from AudioProvider.tsx: a no-op on an empty playlist
or at index 0 (JS computes `currentIndex - 1 = -1`). -/
def playPrevious (loadOk : Bool) (s : SysState) : SysState :=
  if s.prov.playlist.length = 0 then s
  else
    let prevIndex : Int := (s.prov.currentIndex : Int) - 1
    if prevIndex ≥ 0 then
      playAudio loadOk (jsAt s.prov.playlist prevIndex.toNat) (some s.prov.playlist)
        (some prevIndex.toNat) s
    else s

/-- `onPlaybackStatusUpdate` from AudioProvider.tsx: statuses with
`isLoaded = false` are discarded; loaded statuses overwrite position,
duration and the playing and buffering flags; on `didJustFinish` the
handler restarts the current track (repeat on) or advances. -/
def onPlaybackStatusUpdate (loadOk : Bool) (st : AVStatus) (s : SysState) : SysState :=
  if st.isLoaded then
    let s := { s with prov.position := (st.positionMillis : ℚ) / 1000,
                      prov.duration := (st.durationMillis : ℚ) / 1000,
                      prov.isPlaying := st.isPlaying,
                      prov.isBuffering := st.isBuffering }
    if st.didJustFinish then
      if s.prov.isRepeating then
        match s.prov.currentAudio with
        | some a => playAudio loadOk (some a) none none s
        | none => s
      else playNext loadOk s
    else s
  else s

/-- Delivery of a status callback emitted by the sound with identifier
`src`.  The provider registers the same `onPlaybackStatusUpdate` closure
on every sound it creates and the handler performs no identity or
generation check, so delivery ignores the source entirely. -/
def deliverStatus (loadOk : Bool) (src : Nat) (st : AVStatus) (s : SysState) : SysState :=
  onPlaybackStatusUpdate loadOk st s

/-- Result of one `sound.getStatusAsync()` query made by the background
manager. -/
structure MediaStatus where
  isLoaded : Bool
  isPlaying : Bool
deriving DecidableEq, Repr

/-- The retry loops of the background manager: up to `n` iterations of
`playAsync` followed by a status query; the loop breaks as soon as a
query reports loaded-and-playing.  `getSt k` is the answer to the k-th
query counted from `base`.  Returns the number of play commands issued
and whether a query succeeded. -/
def tryPlayLoop (getSt : Nat → MediaStatus) (base : Nat) : Nat → Nat × Bool
  | 0 => (0, false)
  | n + 1 =>
    let st := getSt base
    if st.isLoaded && st.isPlaying then (1, true)
    else
      let r := tryPlayLoop getSt (base + 1) n
      (r.1 + 1, r.2)

/-- `BackgroundAudioManager.emergencyRestart`: when a sound is set and
the playing hint is on, stop the sound and force play up to 10 times.
It mutates no manager state (in particular it sets no error flag and
never clears `isPlaying`); the model returns the number of play
commands issued. -/
def emergencyRestart (getSt : Nat → MediaStatus) (m : MgrState) : Nat :=
  if m.sound.isSome && m.isPlaying then (tryPlayLoop getSt 0 10).1 else 0

/-- What one tick of the continuous background task did. -/
structure TickLog where
  emergencyRestarts : Nat
  playCmds : Nat
deriving DecidableEq, Repr

/-- The body of the 1-second interval installed by
`BackgroundAudioManager.startContinuousBackgroundTask`: if a sound is
set and the playing hint is on, query the status; when it reports
loaded but not playing, attempt up to 5 resumes and, if none succeeds,
invoke `emergencyRestart` (once per such tick).  The manager state is
not modified by a tick. -/
def continuousTick (getSt : Nat → MediaStatus) (m : MgrState) : TickLog :=
  if m.sound.isSome && m.isPlaying then
    let st := getSt 0
    if st.isLoaded && !st.isPlaying then
      let r := tryPlayLoop getSt 1 5
      if r.2 then { emergencyRestarts := 0, playCmds := r.1 }
      else { emergencyRestarts := 1,
             playCmds := r.1 + emergencyRestart (fun k => getSt (1 + r.1 + k)) m }
    else { emergencyRestarts := 0, playCmds := 0 }
  else { emergencyRestarts := 0, playCmds := 0 }

/-- Cumulative log of `n` ticks of the continuous background task;
`getSt t` is the status oracle of tick `t`.  Since a tick never mutates
the manager state, every tick runs on the same `m`. -/
def runTicks (getSt : Nat → Nat → MediaStatus) (m : MgrState) : Nat → TickLog
  | 0 => { emergencyRestarts := 0, playCmds := 0 }
  | n + 1 =>
    let acc := runTicks getSt m n
    let cur := continuousTick (getSt n) m
    { emergencyRestarts := acc.emergencyRestarts + cur.emergencyRestarts,
      playCmds := acc.playCmds + cur.playCmds }

/-- A media handle that is stuck: loaded but never playing, whatever is
attempted. -/
def stuckStatus : MediaStatus := { isLoaded := true, isPlaying := false }

/-- `BackgroundAudioManager.startContinuousBackgroundTask`: calls
`clearInterval` on whatever is in `backgroundTaskId` (a no-op unless it
is an interval handle), then installs a fresh 1-second interval and
stores its handle. -/
def startContinuousBackgroundTask (s : SysState) : SysState :=
  let s :=
    match s.mgr.backgroundTaskId with
    | some (BgTaskId.interval i) =>
      { s with mgr.activeIntervals := s.mgr.activeIntervals.erase i }
    | _ => s
  { s with mgr.backgroundTaskId := some (BgTaskId.interval s.clock),
           mgr.activeIntervals := s.clock :: s.mgr.activeIntervals,
           clock := s.clock + 1 }

/-- `BackgroundAudioManager.stopBackgroundTask`: only nulls the stored
id; no `clearInterval` call, so any running interval keeps firing. -/
def stopBackgroundTask (s : SysState) : SysState :=
  { s with mgr.backgroundTaskId := none }

/-- `BackgroundAudioManager.cleanup`: `clearInterval` on the stored id
when present (effective only when it is an interval handle), then null
out the id, unload the sound and reset the manager fields. -/
def cleanup (s : SysState) : SysState :=
  let s :=
    match s.mgr.backgroundTaskId with
    | some (BgTaskId.interval i) =>
      { s with mgr.activeIntervals := s.mgr.activeIntervals.erase i,
               mgr.backgroundTaskId := none }
    | some (BgTaskId.timestamp _) => { s with mgr.backgroundTaskId := none }
    | none => s
  { s with mgr.sound := none,
           mgr.currentAudio := none,
           mgr.isPlaying := false }

/-- The save-throttle condition of `PlayerScreen.onPlaybackStatusUpdate`:
`savePosition` is called exactly when the status is loaded and
`positionMillis % 5000 < 100`. -/
def psShouldSave (st : AVStatus) : Bool :=
  st.isLoaded && decide (st.positionMillis % 5000 < 100)

/-- The position (in seconds) that `savePosition` writes for a status,
when the throttle lets the write through. -/
def psSaveValue (st : AVStatus) : Option ℚ :=
  if psShouldSave st then some ((st.positionMillis : ℚ) / 1000) else none

/-- Status delivered at second `k` of a continuous play simulation with
1-second polling: playing, position `1000 * k` milliseconds. -/
def simStatus (k : Nat) : AVStatus where
  isLoaded := true
  isPlaying := true
  isBuffering := false
  positionMillis := 1000 * k
  durationMillis := 180000
  didJustFinish := false

/-- Positions written to the Position Store over a 12-second continuous
play simulation with 1-second polling (ticks at seconds 1 to 12). -/
def simSaves : List ℚ :=
  (List.range 12).filterMap (fun k => psSaveValue (simStatus (k + 1)))

/-! Concrete tracks and states used by counterexamples and witnesses. -/

def trackA : Track := { id := "A", title := "Track A", localUri := "file://a.mp3" }

def trackB : Track := { id := "B", title := "Track B", localUri := "file://b.mp3" }

def trackC : Track := { id := "C", title := "Track C", localUri := "file://c.mp3" }

/-- State after `play(trackA)` from the initial state (load succeeds). -/
def stateAfterPlayA : SysState := playAudio true (some trackA) none none initialState

/-- State after `play(trackA)` then `play(trackB)` back-to-back. -/
def stateAfterPlayAB : SysState := playAudio true (some trackB) none none stateAfterPlayA

/-- A late status update still carrying data of trackA's load: loaded,
playing, position 7 s. -/
def staleStatusA : AVStatus where
  isLoaded := true
  isPlaying := true
  isBuffering := false
  positionMillis := 7000
  durationMillis := 180000
  didJustFinish := false

/-- A state in mid background playback: sound 1 loaded and playing, the
health-check interval with handle 9 running. -/
def playingCtx : SysState where
  prov := { initialProv with soundRef := some 1, isPlaying := true,
                             currentAudio := some trackA, duration := 10,
                             playlist := [some trackA], originalPlaylist := [some trackA],
                             posUpdatesActive := true }
  mgr := { currentAudio := some trackA, sound := some 1, isPlaying := true,
           backgroundTaskId := some (BgTaskId.interval 9), activeIntervals := [9] }
  clock := 10

/-- A manager whose hint says playing and whose sound is set, facing a
stuck handle. -/
def stuckMgr : MgrState where
  currentAudio := some trackA
  sound := some 5
  isPlaying := true
  backgroundTaskId := some (BgTaskId.interval 9)
  activeIntervals := [9]

/-! ## C1 -/

/-- What a loaded, non-finishing status does to the session, whatever
its source sound: the handler copies its fields into SessionState. -/
theorem deliver_loaded_fields (loadOk : Bool) (src : Nat) (st : AVStatus)
    (s : SysState) (hL : st.isLoaded = true) (hF : st.didJustFinish = false) :
    (deliverStatus loadOk src st s).prov.position = (st.positionMillis : ℚ) / 1000 ∧
    (deliverStatus loadOk src st s).prov.duration = (st.durationMillis : ℚ) / 1000 ∧
    (deliverStatus loadOk src st s).prov.isPlaying = st.isPlaying ∧
    (deliverStatus loadOk src st s).prov.isBuffering = st.isBuffering := by
  refine ⟨?_, ?_, ?_, ?_⟩ <;> simp [deliverStatus, onPlaybackStatusUpdate, hL, hF]

/-- C1, counterexample.  After `play(trackA)` then `play(trackB)`
back-to-back (creating sounds 1 and 3), delivering a status callback
that belongs to trackA's superseded sound 1 after trackB's load has
completed mutates SessionState: `position` jumps from 0 to 7.  The code
maintains no generation counter, so nothing discards the stale
callback. -/
theorem C1_stale_callback_mutates_state :
    stateAfterPlayA.prov.soundRef = some 1 ∧
    stateAfterPlayAB.prov.soundRef = some 3 ∧
    stateAfterPlayAB.prov.position = 0 ∧
    (deliverStatus true 1 staleStatusA stateAfterPlayAB).prov.position = 7 := by
  refine ⟨rfl, rfl, rfl, ?_⟩
  rw [deliver_loaded_fields true 1 staleStatusA stateAfterPlayAB rfl rfl |>.1]
  norm_num [staleStatusA]

/-- C1, amended: the provider has no generation counter; delivery of a
status callback ignores which sound emitted it.  A status with
`isLoaded = false` leaves the state unchanged, but every loaded status
overwrites position, duration and the playing and buffering flags of
SessionState regardless of the (stale or current) source sound. -/
theorem C1_amended_no_generation_filter (loadOk : Bool) (src : Nat) (st : AVStatus)
    (s : SysState) (hL : st.isLoaded = true) (hF : st.didJustFinish = false) :
    (deliverStatus loadOk src st s).prov.position = (st.positionMillis : ℚ) / 1000 ∧
    (deliverStatus loadOk src st s).prov.duration = (st.durationMillis : ℚ) / 1000 ∧
    (deliverStatus loadOk src st s).prov.isPlaying = st.isPlaying ∧
    (deliverStatus loadOk src st s).prov.isBuffering = st.isBuffering ∧
    ∀ st2 s2, st2.isLoaded = false → deliverStatus loadOk src st2 s2 = s2 := by
  obtain ⟨h1, h2, h3, h4⟩ := deliver_loaded_fields loadOk src st s hL hF
  refine ⟨h1, h2, h3, h4, ?_⟩
  intro st2 s2 h
  simp [deliverStatus, onPlaybackStatusUpdate, h]

theorem C1_amended_witness :
    staleStatusA.isLoaded = true ∧ staleStatusA.didJustFinish = false ∧
    (deliverStatus true 1 staleStatusA stateAfterPlayAB).prov.position = (7000 : ℚ) / 1000 := by
  exact ⟨rfl, rfl,
    (C1_amended_no_generation_filter true 1 staleStatusA stateAfterPlayAB rfl rfl).1⟩

/-! ## C2 -/

/-- C2: with a non-empty playlist, `playNext` at the last index takes
the end-of-playlist branch and equals `stopAudio`, which keeps both
playlists and `currentIndex` intact while clearing the current track,
the playing flag, position and duration; and `playPrevious` at index 0
leaves the state unchanged.  Neither wraps around. -/
theorem C2_next_prev_no_wraparound :
    (∀ (loadOk : Bool) (s : SysState), s.prov.playlist ≠ [] →
      s.prov.currentIndex = s.prov.playlist.length - 1 →
      s.prov.isRepeating = false →
      playNext loadOk s = stopAudio s ∧
      (stopAudio s).prov.playlist = s.prov.playlist ∧
      (stopAudio s).prov.originalPlaylist = s.prov.originalPlaylist ∧
      (stopAudio s).prov.currentIndex = s.prov.currentIndex ∧
      (stopAudio s).prov.currentAudio = none ∧
      (stopAudio s).prov.isPlaying = false ∧
      (stopAudio s).prov.position = 0 ∧
      (stopAudio s).prov.duration = 0) ∧
    (∀ (loadOk : Bool) (s : SysState), s.prov.playlist ≠ [] →
      s.prov.currentIndex = 0 →
      playPrevious loadOk s = s) := by
  constructor
  · intro loadOk s hne hidx _hrep
    have h0 : s.prov.playlist.length ≠ 0 := fun h => hne (List.length_eq_zero.mp h)
    have h1 : ¬ (s.prov.currentIndex + 1 < s.prov.playlist.length) := by omega
    refine ⟨?_, rfl, rfl, rfl, rfl, rfl, rfl, rfl⟩
    simp [playNext, h0, h1]
  · intro loadOk s hne hidx
    have h0 : s.prov.playlist.length ≠ 0 := fun h => hne (List.length_eq_zero.mp h)
    simp [playPrevious, h0, hidx]

theorem C2_next_prev_no_wraparound_witness :
    playingCtx.prov.playlist ≠ [] ∧
    playingCtx.prov.currentIndex = playingCtx.prov.playlist.length - 1 ∧
    playingCtx.prov.isRepeating = false ∧
    playNext true playingCtx = stopAudio playingCtx ∧
    playPrevious true playingCtx = playingCtx := by
  refine ⟨by decide, rfl, rfl,
    (C2_next_prev_no_wraparound.1 true playingCtx (by decide) rfl rfl).1,
    C2_next_prev_no_wraparound.2 true playingCtx (by decide) rfl⟩

/-! ## C4 -/

/-- A retry loop of `n` attempts issues at most `n` play commands. -/
theorem tryPlayLoop_fst_le (getSt : Nat → MediaStatus) :
    ∀ (n base : Nat), (tryPlayLoop getSt base n).1 ≤ n := by
  intro n
  induction n with
  | zero => intro base; simp [tryPlayLoop]
  | succ k ih =>
    intro base
    simp only [tryPlayLoop]
    split
    · simp
    · simpa using Nat.succ_le_succ (ih (base + 1))

/-- Against a stuck handle every attempt fails, so a loop of `n`
attempts issues exactly `n` play commands and reports failure. -/
theorem tryPlayLoop_stuck (n : Nat) :
    ∀ base, tryPlayLoop (fun _ => stuckStatus) base n = (n, false) := by
  induction n with
  | zero => intro base; rfl
  | succ k ih =>
    intro base
    have hcond : (stuckStatus.isLoaded && stuckStatus.isPlaying) = false := rfl
    simp [tryPlayLoop, hcond, ih]

/-- C4, counterexample.  With the handle stuck and the manager hinting
playing, 6 consecutive health-check ticks issue 6 emergency restarts —
one per tick, not exactly one — and nothing caps the total: 20 stuck
ticks issue 20 emergency restarts (beyond any cap of 10) while the
manager still reports `isPlaying = true` (never paused, and no error
flag exists in its state). -/
theorem C4_emergency_restart_every_tick :
    (runTicks (fun _ _ => stuckStatus) stuckMgr 6).emergencyRestarts = 6 ∧
    (runTicks (fun _ _ => stuckStatus) stuckMgr 6).emergencyRestarts ≠ 1 ∧
    (runTicks (fun _ _ => stuckStatus) stuckMgr 20).emergencyRestarts = 20 ∧
    stuckMgr.isPlaying = true := by
  decide

/-- C4, amended: every tick that finds the handle stuck performs 5
in-place resume attempts followed by exactly one emergency restart of
at most 10 internal play attempts (15 play commands per stuck tick);
over `n` stuck ticks the guard issues `n` emergency restarts.  There is
no cross-tick cap, no give-up transition and no error flag: the tick
leaves the manager state untouched. -/
theorem C4_amended_restart_cadence (m : MgrState)
    (hs : m.sound.isSome = true) (hp : m.isPlaying = true) :
    continuousTick (fun _ => stuckStatus) m
      = { emergencyRestarts := 1, playCmds := 15 } ∧
    (∀ n, (runTicks (fun _ _ => stuckStatus) m n).emergencyRestarts = n) ∧
    (∀ getSt : Nat → MediaStatus, emergencyRestart getSt m ≤ 10) := by
  have htick : continuousTick (fun _ => stuckStatus) m
      = { emergencyRestarts := 1, playCmds := 15 } := by
    have hcond : (stuckStatus.isLoaded && !stuckStatus.isPlaying) = true := rfl
    simp [continuousTick, hs, hp, hcond, tryPlayLoop_stuck, emergencyRestart]
  refine ⟨htick, ?_, ?_⟩
  · intro n
    induction n with
    | zero => rfl
    | succ k ih => simp [runTicks, ih, htick]
  · intro getSt
    simp only [emergencyRestart, hs, hp, Bool.and_self, if_pos]
    exact tryPlayLoop_fst_le getSt 10 0

theorem C4_amended_witness :
    stuckMgr.sound.isSome = true ∧ stuckMgr.isPlaying = true ∧
    continuousTick (fun _ => stuckStatus) stuckMgr
      = { emergencyRestarts := 1, playCmds := 15 } ∧
    (runTicks (fun _ _ => stuckStatus) stuckMgr 6).emergencyRestarts = 6 := by
  obtain ⟨h1, h2, _⟩ := C4_amended_restart_cadence stuckMgr rfl rfl
  exact ⟨rfl, rfl, h1, h2 6⟩

/-! ## C5 -/

/-- C5, counterexample.  In a state where the health-check interval
(handle 9) is running, a user pause and a user stop both leave interval
9 active: `pauseAudio` never touches it, and `stopAudio` calls
`stopBackgroundTask`, which only nulls the stored id without
`clearInterval`.  The claim that the interval is cancelled on user
pause or stop is false. -/
theorem C5_interval_survives_pause_and_stop :
    playingCtx.mgr.activeIntervals = [9] ∧
    (pauseAudio playingCtx).mgr.activeIntervals = [9] ∧
    (stopAudio playingCtx).mgr.activeIntervals = [9] ∧
    (stopAudio playingCtx).mgr.backgroundTaskId = none := by
  decide

/-- C5, amended: user pause and stop do not cancel the health-check
interval; they clear the manager's playing hint (stop also clears its
sound), and every health-check tick is gated on
`sound exists ∧ isPlaying`, so after a pause or stop no tick issues any
play command or emergency restart.  Only `cleanup` cancels the interval,
and only when the stored id still is the interval handle. -/
theorem C5_amended_ticks_inert_after_pause (s : SysState)
    (h : s.prov.soundRef.isSome = true) :
    (pauseAudio s).mgr.isPlaying = false ∧
    (pauseAudio s).mgr.activeIntervals = s.mgr.activeIntervals ∧
    (stopAudio s).mgr.isPlaying = false ∧
    (stopAudio s).mgr.sound = none ∧
    (stopAudio s).mgr.activeIntervals = s.mgr.activeIntervals ∧
    (∀ (getSt : Nat → MediaStatus) (m : MgrState), m.isPlaying = false →
      continuousTick getSt m = { emergencyRestarts := 0, playCmds := 0 }) ∧
    (∀ (getSt : Nat → MediaStatus) (m : MgrState), m.sound = none →
      continuousTick getSt m = { emergencyRestarts := 0, playCmds := 0 }) ∧
    (∀ i, s.mgr.backgroundTaskId = some (BgTaskId.interval i) →
      (cleanup s).mgr.activeIntervals = s.mgr.activeIntervals.erase i) := by
  refine ⟨by simp [pauseAudio, h], by simp [pauseAudio, h], rfl, rfl, rfl, ?_, ?_, ?_⟩
  · intro getSt m hm; simp [continuousTick, hm]
  · intro getSt m hm; simp [continuousTick, hm]
  · intro i hi; simp [cleanup, hi]

theorem C5_amended_witness :
    playingCtx.prov.soundRef.isSome = true ∧
    (pauseAudio playingCtx).mgr.isPlaying = false ∧
    (cleanup playingCtx).mgr.activeIntervals = [] := by
  refine ⟨rfl, (C5_amended_ticks_inert_after_pause playingCtx rfl).1, ?_⟩
  have h := (C5_amended_ticks_inert_after_pause playingCtx rfl).2.2.2.2.2.2.2 9 rfl
  simpa using h

/-! ## C6 -/

/-- Keeping or resetting the playlist never touches position, duration
or the current track. -/
theorem keepPlaylist_fields (a : Track) (u : SysState) :
    (playAudioKeepPlaylist a u).prov.position = u.prov.position ∧
    (playAudioKeepPlaylist a u).prov.duration = u.prov.duration ∧
    (playAudioKeepPlaylist a u).prov.currentAudio = u.prov.currentAudio := by
  unfold playAudioKeepPlaylist
  split
  · split <;> exact ⟨rfl, rfl, rfl⟩
  · exact ⟨rfl, rfl, rfl⟩

/-- The playlist-context block of `playAudio` only rewrites the
playlists and the index. -/
theorem installContext_fields (a : Track) (ctx : Option (List Slot)) (ei : Option Nat)
    (t : SysState) :
    (playAudioInstallContext a ctx ei t).prov.position = t.prov.position ∧
    (playAudioInstallContext a ctx ei t).prov.duration = t.prov.duration ∧
    (playAudioInstallContext a ctx ei t).prov.currentAudio = t.prov.currentAudio := by
  unfold playAudioInstallContext
  split
  · split
    · exact ⟨rfl, rfl, rfl⟩
    · exact keepPlaylist_fields a t
  · exact keepPlaylist_fields a t

/-- C6, counterexample.  When the load inside `play(trackA)` fails, the
session is not left in Idle with the current track cleared: the catch
block only resets the playing flags, so `currentTrack` remains set to
trackA (it was assigned before the load), and the error is swallowed by
the catch rather than reported. -/
theorem C6_failed_load_not_idle :
    (playAudio false (some trackA) none none initialState).prov.currentAudio = some trackA ∧
    (playAudio false (some trackA) none none initialState).prov.currentAudio ≠ none ∧
    (playAudio false (some trackA) none none initialState).prov.isPlaying = false := by
  decide

/-- C6, amended: a load failure inside `playAudio` is caught and logged,
not propagated; the session ends with the playing flags false but with
`currentTrack` still set to the requested track and position and
duration untouched (stale).  There is no Loading status to get stuck in,
and an immediate retry with a successful load ends playing. -/
theorem C6_amended_failed_load_state (ctx : Option (List Slot)) (ei : Option Nat)
    (a : Track) (s : SysState) :
    (playAudio false (some a) ctx ei s).prov.isPlaying = false ∧
    (playAudio false (some a) ctx ei s).mgr.isPlaying = false ∧
    (playAudio false (some a) ctx ei s).prov.currentAudio = some a ∧
    (playAudio false (some a) ctx ei s).prov.position = s.prov.position ∧
    (playAudio false (some a) ctx ei s).prov.duration = s.prov.duration ∧
    (playAudio true (some a) ctx ei (playAudio false (some a) ctx ei s)).prov.isPlaying
      = true := by
  have hpos := fun t => (installContext_fields a ctx ei t).1
  have hdur := fun t => (installContext_fields a ctx ei t).2.1
  have hcur := fun t => (installContext_fields a ctx ei t).2.2
  refine ⟨?_, ?_, ?_, ?_, ?_, ?_⟩ <;> simp [playAudio, hpos, hdur, hcur]

/-! ## C7 -/

/-- C7, counterexample.  `setPlaylist([trackA], 5)` stores
`currentIndex = 5`, far outside the valid range `[0, 0]`: the source
performs no clamping. -/
theorem C7_setPlaylist_does_not_clamp :
    (setPlaylist [some trackA] 5 initialState).prov.currentIndex = 5 ∧
    ¬ (setPlaylist [some trackA] 5 initialState).prov.currentIndex
        ≤ [some trackA].length - 1 := by
  decide

/-- C7, amended: `setPlaylist(tracks, startIndex)` replaces both
`playlist` and `originalPlaylist` with `tracks` and assigns
`currentIndex := startIndex` unconditionally, with no clamping and no
special empty-list state; for every in-range `startIndex` the resulting
current track is `tracks[startIndex]`. -/
theorem C7_amended_setPlaylist_spec (tracks : List Slot) (i : Nat) (s : SysState)
    (h : i < tracks.length) :
    (setPlaylist tracks i s).prov.playlist = tracks ∧
    (setPlaylist tracks i s).prov.originalPlaylist = tracks ∧
    (setPlaylist tracks i s).prov.currentIndex = i ∧
    jsAt (setPlaylist tracks i s).prov.playlist (setPlaylist tracks i s).prov.currentIndex
      = tracks.get ⟨i, h⟩ ∧
    (∀ (tracks2 : List Slot) (j : Nat) (s2 : SysState),
      (setPlaylist tracks2 j s2).prov.currentIndex = j) := by
  refine ⟨rfl, rfl, rfl, ?_, fun tracks2 j s2 => rfl⟩
  simp [setPlaylist, jsAt, List.getD_eq_getElem?_getD, List.getElem?_eq_getElem h,
    List.get_eq_getElem]

theorem C7_amended_witness :
    (1 : Nat) < [some trackA, some trackB].length ∧
    jsAt (setPlaylist [some trackA, some trackB] 1 initialState).prov.playlist
      (setPlaylist [some trackA, some trackB] 1 initialState).prov.currentIndex
      = some trackB := by
  refine ⟨by decide, ?_⟩
  exact (C7_amended_setPlaylist_spec [some trackA, some trackB] 1 initialState
    (by decide)).2.2.2.1

/-! ## C8 -/

/-- C8, counterexample.  With duration 10 s, `seekTo(20)` hands the
media handle 20000 ms, i.e. 20 s, which lies outside `[0, 10]`: the
source performs no clamping of the seek target. -/
theorem C8_seek_not_clamped :
    (seekTo 20 playingCtx).2 = some 20000 ∧
    playingCtx.prov.duration = 10 ∧
    ¬ ((20000 : ℚ) / 1000 ≤ playingCtx.prov.duration) := by
  refine ⟨?_, rfl, ?_⟩
  · rw [show (seekTo 20 playingCtx).2 = some ((20 : ℚ) * 1000) from rfl]
    norm_num
  · rw [show playingCtx.prov.duration = (10 : ℚ) from rfl]
    norm_num

/-- C8, amended: when a sound is loaded, `seekTo(p)` delegates exactly
`p * 1000` milliseconds to the handle, unclamped, records `position := p`
and leaves the playing and buffering flags and the current track
unchanged. -/
theorem C8_amended_seek_spec (p : ℚ) (s : SysState)
    (h : s.prov.soundRef.isSome = true) :
    (seekTo p s).2 = some (p * 1000) ∧
    (seekTo p s).1.prov.position = p ∧
    (seekTo p s).1.prov.isPlaying = s.prov.isPlaying ∧
    (seekTo p s).1.prov.isBuffering = s.prov.isBuffering ∧
    (seekTo p s).1.prov.currentAudio = s.prov.currentAudio := by
  refine ⟨?_, ?_, ?_, ?_, ?_⟩ <;> simp [seekTo, h]

theorem C8_amended_witness :
    playingCtx.prov.soundRef.isSome = true ∧
    (seekTo 3 playingCtx).2 = some ((3 : ℚ) * 1000) ∧
    (seekTo 3 playingCtx).1.prov.isPlaying = playingCtx.prov.isPlaying := by
  exact ⟨rfl, (C8_amended_seek_spec 3 playingCtx rfl).1,
    (C8_amended_seek_spec 3 playingCtx rfl).2.2.1⟩

/-! ## C9 -/

/-- C9: over the 12-second continuous play simulation with 1-second
polling, the `positionMillis % 5000 < 100` throttle lets exactly 2
writes through, at 5 s and 10 s, not one write per poll tick. -/
theorem C9_save_cadence :
    simSaves = [5, 10] ∧ simSaves.length = 2 ∧ simSaves.length ≠ 12 := by
  have h : simSaves = [(5000 : ℕ) / 1000, (10000 : ℕ) / 1000] := by
    simp [simSaves, psSaveValue, psShouldSave, simStatus, List.range_succ]
    norm_num
  rw [h]
  norm_num

/-! ## C10 -/

/-- An empty playlist whose stale `currentIndex` is 3. -/
def emptyShuffleCtx : SysState :=
  { initialState with prov := { initialProv with currentIndex := 3 } }

/-- C10, counterexample.  Enabling shuffle on an empty playlist never
installs the claimed `order = [undefined]` with `currentIndex = 0`: the
handler builds that array internally, but the guarded debug log
`shuffled.map(a => a.title)` throws a TypeError on the undefined
element before `setPlaylistState`/`setCurrentIndex` run, so the order
stays empty and the index untouched (only the shuffle flag commits). -/
theorem C10_undefined_order_never_installed :
    (toggleShuffle (fun i => i) emptyShuffleCtx).prov.playlist = [] ∧
    (toggleShuffle (fun i => i) emptyShuffleCtx).prov.playlist ≠ [none] ∧
    (toggleShuffle (fun i => i) emptyShuffleCtx).prov.currentIndex = 3 ∧
    (toggleShuffle (fun i => i) emptyShuffleCtx).prov.currentIndex ≠ 0 ∧
    (toggleShuffle (fun i => i) emptyShuffleCtx).prov.isShuffled = true := by
  decide

/-- C10, amended: enabling shuffle on an empty playlist reads the
absent slot at `currentIndex` (JS `undefined`) and unshifts it,
building `[undefined]` internally, but does not preserve a consistent
state for a different reason than claimed: the debug log mapping
`a.title` over the built array throws a TypeError before the new order
and index are stored.  The handler aborts with `order` still empty and
`currentIndex` unchanged, while the already-executed `setIsShuffled`
leaves the shuffle flag true — a flag-set/unshuffled inconsistency
rather than `order = [undefined]`. -/
theorem C10_amended_empty_shuffle_aborts (rand : Nat → Nat) (s : SysState)
    (hpl : s.prov.playlist = []) (horig : s.prov.originalPlaylist = [])
    (hsh : s.prov.isShuffled = false) :
    (toggleShuffle rand s).prov.playlist = [] ∧
    (toggleShuffle rand s).prov.currentIndex = s.prov.currentIndex ∧
    (toggleShuffle rand s).prov.isShuffled = true ∧
    (toggleShuffle rand s).prov.originalPlaylist = [] := by
  have hthrow : logMapThrows ((none : Slot) :: ([] : List Slot)) = true := rfl
  simp [toggleShuffle, hsh, horig, hpl, jsAt, fisherYates, fyAux, hthrow]

theorem C10_amended_empty_shuffle_witness :
    emptyShuffleCtx.prov.playlist = [] ∧
    emptyShuffleCtx.prov.originalPlaylist = [] ∧
    emptyShuffleCtx.prov.isShuffled = false ∧
    (toggleShuffle (fun i => i) emptyShuffleCtx).prov.currentIndex
      = emptyShuffleCtx.prov.currentIndex := by
  exact ⟨rfl, rfl, rfl,
    (C10_amended_empty_shuffle_aborts (fun i => i) emptyShuffleCtx rfl rfl rfl).2.1⟩

/-! ## C3 -/

/-- Writing `a` over the slot read at position `m` and re-consing the
old value permutes the list extended with `a`. -/
theorem get_cons_set_perm (a : Slot) :
    ∀ (l : List Slot) (m : Nat) (b : Slot), l.get? m = some b →
      (b :: l.set m a).Perm (a :: l) := by
  intro l
  induction l with
  | nil => intro m b h; simp at h
  | cons c t ih =>
    intro m b h
    cases m with
    | zero =>
      obtain rfl : c = b := by simpa using h
      exact List.Perm.swap a c t
    | succ k =>
      have h2 : t.get? k = some b := by simpa using h
      have s1 : (b :: c :: t.set k a).Perm (c :: b :: t.set k a) := List.Perm.swap c b _
      have s2 : (c :: b :: t.set k a).Perm (c :: a :: t) := (ih k b h2).cons c
      exact (s1.trans s2).trans (List.Perm.swap a c t)

/-- The in-place swap of two in-range elements is a permutation. -/
theorem swap_set_perm :
    ∀ (l : List Slot) (i j : Nat) (a b : Slot),
      l.get? i = some a → l.get? j = some b → ((l.set i b).set j a).Perm l := by
  intro l
  induction l with
  | nil => intro i j a b hi _; simp at hi
  | cons c t ih =>
    intro i j a b hi hj
    cases i with
    | zero =>
      obtain rfl : c = a := by simpa using hi
      cases j with
      | zero => exact List.Perm.refl _
      | succ k =>
        have hj2 : t.get? k = some b := by simpa using hj
        exact get_cons_set_perm c t k b hj2
    | succ k =>
      cases j with
      | zero =>
        obtain rfl : c = b := by simpa using hj
        have hi2 : t.get? k = some a := by simpa using hi
        exact get_cons_set_perm c t k a hi2
      | succ k2 =>
        have hi2 : t.get? k = some a := by simpa using hi
        have hj2 : t.get? k2 = some b := by simpa using hj
        exact (ih k k2 a b hi2 hj2).cons c

theorem swapIdx_perm (l : List Slot) (i j : Nat) : (swapIdx l i j).Perm l := by
  unfold swapIdx
  split
  next a b hi hj => exact swap_set_perm l i j a b hi hj
  next => exact List.Perm.refl l

theorem fyAux_perm (rand : Nat → Nat) :
    ∀ (n : Nat) (l : List Slot), (fyAux rand l n).Perm l := by
  intro n
  induction n with
  | zero => intro l; exact List.Perm.refl l
  | succ i ih =>
    intro l
    exact (ih _).trans (swapIdx_perm l (i + 1) (rand (i + 1) % (i + 2)))

/-- The Fisher-Yates pass only permutes the list. -/
theorem fisherYates_perm (rand : Nat → Nat) (l : List Slot) :
    (fisherYates rand l).Perm l :=
  fyAux_perm rand _ l

/-- Re-consing the element read at position `n` onto the list with that
position erased permutes the list. -/
theorem get_cons_eraseIdx_perm :
    ∀ (l : List Slot) (n : Nat) (x : Slot), l.get? n = some x →
      (x :: l.eraseIdx n).Perm l := by
  intro l
  induction l with
  | nil => intro n x h; simp at h
  | cons c t ih =>
    intro n x h
    cases n with
    | zero =>
      obtain rfl : c = x := by simpa using h
      exact List.Perm.refl _
    | succ k =>
      have h2 : t.get? k = some x := by simpa using h
      have s1 : (x :: c :: t.eraseIdx k).Perm (c :: x :: t.eraseIdx k) := List.Perm.swap c x _
      exact s1.trans ((ih k x h2).cons c)

/-- When some position satisfies the predicate, `findIdx?` answers with
a position whose element satisfies it. -/
theorem findIdx?_found (p : Slot → Bool) (l : List Slot) (n : Nat) (x : Slot)
    (hx : l.get? n = some x) (hp : p x = true) :
    ∃ m sl, l.findIdx? p = some m ∧ l.get? m = some sl ∧ p sl = true := by
  have hmem : x ∈ l := List.get?_mem hx
  have hne : l.findIdx? p ≠ none := by
    intro hnone
    have hfalse := List.findIdx?_eq_none_iff.mp hnone x hmem
    simp [hp] at hfalse
  obtain ⟨m, hm⟩ := Option.ne_none_iff_exists'.mp hne
  have hmatch := List.findIdx?_of_eq_some hm
  split at hmatch
  next sl heq =>
    refine ⟨m, sl, hm, ?_, hmatch⟩
    rw [List.get?_eq_getElem?]
    exact heq
  next => simp at hmatch

/-- The debug log over a list of real tracks does not throw. -/
theorem logMapThrows_eq_false (l : List Slot)
    (h : ∀ slot ∈ l, slot.isSome = true) : logMapThrows l = false := by
  have hany : l.any (fun slot => slot.isNone) = false := by
    rw [List.any_eq_false]
    intro slot hm
    have hs := h slot hm
    cases slot with
    | none => simp at hs
    | some x => simp
  simp [logMapThrows, hany]

/-- C3: from a well-formed unshuffled state (`playlist = originalOrder`,
a playlist of real tracks, in-range `currentIndex`), enabling shuffle
puts the current track at index 0 with `currentIndex = 0` and permutes
exactly the remaining tracks, and disabling restores the pre-shuffle
order with the current track recovered by its id (index 0 when the id
is absent); so toggle-toggle restores the order and neither toggle
changes the current track's identity. -/
theorem C3_shuffle_roundtrip (rand rand2 : Nat → Nat) (s : SysState) (L : List Slot)
    (n : Nat) (t : Track)
    (hpl : s.prov.playlist = L) (horig : s.prov.originalPlaylist = L)
    (hidx : s.prov.currentIndex = n) (hsh : s.prov.isShuffled = false)
    (hslot : L.get? n = some (some t))
    (hwf : ∀ slot ∈ L, slot.isSome = true) :
    (toggleShuffle rand s).prov.isShuffled = true ∧
    (toggleShuffle rand s).prov.currentIndex = 0 ∧
    jsAt (toggleShuffle rand s).prov.playlist 0 = some t ∧
    (toggleShuffle rand s).prov.playlist.Perm L ∧
    (toggleShuffle rand s).prov.playlist.tail.Perm (L.eraseIdx n) ∧
    (toggleShuffle rand s).prov.originalPlaylist = L ∧
    (toggleShuffle rand2 (toggleShuffle rand s)).prov.isShuffled = false ∧
    (toggleShuffle rand2 (toggleShuffle rand s)).prov.playlist = L ∧
    (jsAt (toggleShuffle rand2 (toggleShuffle rand s)).prov.playlist
        (toggleShuffle rand2 (toggleShuffle rand s)).prov.currentIndex).map Track.id
      = some t.id ∧
    (∀ (rand3 : Nat → Nat) (s3 : SysState), s3.prov.isShuffled = true →
      (∀ slot ∈ s3.prov.originalPlaylist, slot.isSome = true) →
      s3.prov.originalPlaylist.findIdx?
        (fun track : Slot => decide (track.map Track.id
          = (jsAt s3.prov.playlist s3.prov.currentIndex).map Track.id)) = none →
      (toggleShuffle rand3 s3).prov.currentIndex = 0) := by
  have hgetD : jsAt L n = some t := by
    rw [jsAt, List.getD_eq_getElem?_getD, ← List.get?_eq_getElem?, hslot]
    rfl
  have hwf1 : ∀ slot ∈ (some t :: fisherYates rand (L.eraseIdx n)), slot.isSome = true := by
    intro slot hm
    rcases List.mem_cons.mp hm with h | h
    · subst h; rfl
    · have h2 : slot ∈ L.eraseIdx n :=
        (fisherYates_perm rand (L.eraseIdx n)).mem_iff.mp h
      exact hwf slot (List.mem_of_mem_eraseIdx h2)
  have hlog1 : logMapThrows (some t :: fisherYates rand (L.eraseIdx n)) = false :=
    logMapThrows_eq_false _ hwf1
  have hlogL : logMapThrows L = false := logMapThrows_eq_false L hwf
  have h1pl : (toggleShuffle rand s).prov.playlist
      = some t :: fisherYates rand (L.eraseIdx n) := by
    simp [toggleShuffle, hsh, horig, hidx, hgetD, hlog1]
  have h1idx : (toggleShuffle rand s).prov.currentIndex = 0 := by
    simp [toggleShuffle, hsh, horig, hidx, hgetD, hlog1]
  have h1sh : (toggleShuffle rand s).prov.isShuffled = true := by
    simp [toggleShuffle, hsh, horig, hidx, hgetD, hlog1]
  have h1orig : (toggleShuffle rand s).prov.originalPlaylist = L := by
    simp [toggleShuffle, hsh, horig, hidx, hgetD, hlog1]
  have hperm_tail : (fisherYates rand (L.eraseIdx n)).Perm (L.eraseIdx n) :=
    fisherYates_perm rand (L.eraseIdx n)
  have hperm : (some t :: fisherYates rand (L.eraseIdx n)).Perm L :=
    (hperm_tail.cons (some t)).trans (get_cons_eraseIdx_perm L n (some t) hslot)
  have hcurid : (jsAt (toggleShuffle rand s).prov.playlist
      (toggleShuffle rand s).prov.currentIndex).map Track.id = some t.id := by
    rw [h1pl, h1idx]
    rfl
  obtain ⟨m, sl, hfind, hslm, hpm⟩ :=
    findIdx?_found (fun track : Slot => decide (track.map Track.id = some t.id)) L n
      (some t) hslot (by simp)
  generalize hgen : toggleShuffle rand s = s1 at h1pl h1idx h1sh h1orig hcurid ⊢
  have h2sh : (toggleShuffle rand2 s1).prov.isShuffled = false := by
    simp [toggleShuffle, h1sh, h1orig, hlogL]
  have h2pl : (toggleShuffle rand2 s1).prov.playlist = L := by
    simp [toggleShuffle, h1sh, h1orig, hlogL]
  have h2idx : (toggleShuffle rand2 s1).prov.currentIndex = m := by
    simp only [toggleShuffle, h1sh, Bool.not_true, Bool.false_eq_true, if_false,
      h1orig, hlogL, hcurid, hfind, Option.getD_some]
  have hjm : jsAt L m = sl := by
    rw [jsAt, List.getD_eq_getElem?_getD, ← List.get?_eq_getElem?, hslm]
    rfl
  refine ⟨h1sh, h1idx, ?_, ?_, ?_, h1orig, h2sh, h2pl, ?_, ?_⟩
  · rw [h1pl]
    rfl
  · rw [h1pl]
    exact hperm
  · rw [h1pl]
    exact hperm_tail
  · rw [h2pl, h2idx, hjm]
    exact of_decide_eq_true hpm
  · intro rand3 s3 h3sh h3wf h3none
    have h3log : logMapThrows s3.prov.originalPlaylist = false :=
      logMapThrows_eq_false _ h3wf
    simp [toggleShuffle, h3sh, h3log, h3none]

/-- A well-formed three-track state with the middle track current. -/
def shuffleCtx : SysState :=
  { initialState with prov := { initialProv with
      playlist := [some trackA, some trackB, some trackC],
      originalPlaylist := [some trackA, some trackB, some trackC],
      currentIndex := 1 } }

theorem C3_shuffle_roundtrip_witness :
    shuffleCtx.prov.isShuffled = false ∧
    (toggleShuffle (fun i => i) shuffleCtx).prov.currentIndex = 0 ∧
    jsAt (toggleShuffle (fun i => i) shuffleCtx).prov.playlist 0 = some trackB ∧
    (toggleShuffle (fun _ => 0) (toggleShuffle (fun i => i) shuffleCtx)).prov.playlist
      = [some trackA, some trackB, some trackC] := by
  have h := C3_shuffle_roundtrip (fun i => i) (fun _ => 0) shuffleCtx
    [some trackA, some trackB, some trackC] 1 trackB rfl rfl rfl rfl rfl (by decide)
  exact ⟨rfl, h.2.1, h.2.2.1, h.2.2.2.2.2.2.2.1⟩

end MusicBag
